import Mathlib

/-
  Verification development for the mist_exporter metric pipeline
  (src/mist_exporter.py).  Python values are embedded as a JSON-like
  tree, machine strings as Lean String, Python ints as Int, and code
  that can raise an uncaught exception as Except Unit.  Network fetches
  are abstracted as Except-valued inputs to the orchestrator model.
-/

namespace MistExporter

/-- ASCII case table modelling the case mapping of Python str.lower and
str.upper on the strings this program manipulates. -/
def upperLower : List (Char × Char) :=
  [('A', 'a'), ('B', 'b'), ('C', 'c'), ('D', 'd'), ('E', 'e'), ('F', 'f'),
   ('G', 'g'), ('H', 'h'), ('I', 'i'), ('J', 'j'), ('K', 'k'), ('L', 'l'),
   ('M', 'm'), ('N', 'n'), ('O', 'o'), ('P', 'p'), ('Q', 'q'), ('R', 'r'),
   ('S', 's'), ('T', 't'), ('U', 'u'), ('V', 'v'), ('W', 'w'), ('X', 'x'),
   ('Y', 'y'), ('Z', 'z')]

/-- Python str.lower on one character (ASCII). -/
def lowerChar (c : Char) : Char :=
  (((upperLower.find? (fun p => p.1 == c))).map Prod.snd).getD c

/-- Python str.lower (ASCII). -/
def lowerStr (s : String) : String := String.mk (s.data.map lowerChar)

/-- Python str.upper on one character (ASCII). -/
def upperChar (c : Char) : Char :=
  (((upperLower.find? (fun p => p.2 == c))).map Prod.fst).getD c

/-- Python str.upper (ASCII). -/
def upperStr (s : String) : String := String.mk (s.data.map upperChar)

/-- Whether a character is an ASCII uppercase letter. -/
def isUpperAscii (c : Char) : Bool := (upperLower.map Prod.fst).contains c

theorem isUpperAscii_lowerChar (c : Char) : isUpperAscii (lowerChar c) = false := by
  unfold lowerChar
  cases h : upperLower.find? (fun p => p.1 == c) with
  | none =>
    simp only [Option.map_none', Option.getD_none]
    have hall := List.find?_eq_none.mp h
    simp only [isUpperAscii, List.contains_eq_any_beq, List.any_eq_false]
    intro a ha
    simp only [List.mem_map] at ha
    obtain ⟨p, hp, rfl⟩ := ha
    have hne := hall p hp
    simp only [beq_iff_eq] at hne ⊢
    exact fun hc => hne hc.symm
  | some p =>
    simp only [Option.map_some', Option.getD_some]
    have hmem := List.mem_of_find?_eq_some h
    have : ∀ q ∈ upperLower, isUpperAscii q.2 = false := by decide
    exact this p hmem

/-- A Python JSON-like value: nested dicts, lists, strings, ints, bools, None.
This is the shape of the records the MIST API returns. -/
inductive JVal where
  | obj : List (String × JVal) → JVal
  | arr : List JVal → JVal
  | str : String → JVal
  | num : Int → JVal
  | bool : Bool → JVal
  | null : JVal
deriving Repr

/-- Python dict lookup: first (unique) binding of the key, if any. -/
def pyDictGet : List (String × JVal) → String → Option JVal
  | [], _ => none
  | (k, v) :: rest, key => if k == key then some v else pyDictGet rest key

mutual

/-- Python repr of a JSON-like value, as produced by str() on containers:
dicts render as key: value pairs in braces with single-quoted string keys,
lists in brackets, strings single-quoted, True, False, None capitalised. -/
def pyRepr : JVal → String
  | .obj kvs => "\x7b" ++ pyReprFields kvs ++ "\x7d"
  | .arr vs => "[" ++ pyReprElems vs ++ "]"
  | .str s => "\x27" ++ s ++ "\x27"
  | .num n => toString n
  | .bool true => "True"
  | .bool false => "False"
  | .null => "None"

/-- Comma-separated key: value renderings of the fields of a dict. -/
def pyReprFields : List (String × JVal) → String
  | [] => ""
  | [(k, v)] => "\x27" ++ k ++ "\x27: " ++ pyRepr v
  | (k, v) :: p :: rest =>
    "\x27" ++ k ++ "\x27: " ++ pyRepr v ++ ", " ++ pyReprFields (p :: rest)

/-- Comma-separated renderings of the elements of a list. -/
def pyReprElems : List JVal → String
  | [] => ""
  | [v] => pyRepr v
  | v :: w :: rest => pyRepr v ++ ", " ++ pyReprElems (w :: rest)

end

/-- Python str() of a value: strings render without quotes, everything else
as its repr. -/
def pyStr : JVal → String
  | .str s => s
  | .obj kvs => pyRepr (.obj kvs)
  | .arr vs => pyRepr (.arr vs)
  | .num n => pyRepr (.num n)
  | .bool b => pyRepr (.bool b)
  | .null => pyRepr .null

/-- Result of a call to get_value_from_path: either a returned string
(which may be the absent marker "False"), or an uncaught exception
(TypeError from indexing a non-dict with a string key, or IndexError on an
empty segment list) propagating to the caller. -/
inductive PResult where
  | val : String → PResult
  | err : PResult
deriving DecidableEq, Repr

/-- The recursive body of get_value_from_path from src/mist_exporter.py,
on an already-split segment list.  Only KeyError (a missing key in a dict)
is caught and turned into the marker "False"; indexing anything that is
not a dict with a string segment raises TypeError, which the except clause
does not catch, and an empty segment list raises IndexError. -/
def get_value_from_path (d : JVal) : List String → PResult
  | [] => .err
  | [k] =>
    match d with
    | .obj kvs =>
      match pyDictGet kvs k with
      | some v => .val (lowerStr (pyStr v))
      | none => .val "False"
    | _ => .err
  | k :: k2 :: rest =>
    match d with
    | .obj kvs =>
      match pyDictGet kvs k with
      | some v => get_value_from_path v (k2 :: rest)
      | none => .val "False"
    | _ => .err

/-- Python str.split on the dot separator, over a character list: the
split of the empty string is one empty field, and every dot starts a new
field. -/
def splitDotChars : List Char → List (List Char)
  | [] => [[]]
  | c :: rest =>
    if c == '.' then [] :: splitDotChars rest
    else
      match splitDotChars rest with
      | [] => [[c]]
      | w :: ws => (c :: w) :: ws

/-- Python path.split on dots, as get_value_from_path applies it to a
string argument. -/
def pySplitDot (s : String) : List String := (splitDotChars s.data).map String.mk

/-- get_value_from_path as called with a dotted path string, which the
Python code splits on dots before traversing. -/
def get_value_from_path_str (d : JVal) (path : String) : PResult :=
  get_value_from_path d (pySplitDot path)

/-- Outcome of the pure traversal of a segment list through a record:
the leaf reached, a missing key in a dict, or an attempt to index a value
that is not a dict. -/
inductive TravOut where
  | leaf : JVal → TravOut
  | missingKey : TravOut
  | nonDict : TravOut
deriving Repr

/-- Pure traversal of a record along a segment list. -/
def travOut (d : JVal) : List String → TravOut
  | [] => .leaf d
  | k :: rest =>
    match d with
    | .obj kvs =>
      match pyDictGet kvs k with
      | some v => travOut v rest
      | none => .missingKey
    | _ => .nonDict

/-- How each traversal outcome surfaces in the Python function: a reached
leaf is rendered str(leaf).lower(), a missing key becomes the marker
"False", and a non-dict lookup base raises. -/
def renderTrav : TravOut → PResult
  | .leaf v => .val (lowerStr (pyStr v))
  | .missingKey => .val "False"
  | .nonDict => .err

/-- A metric value as it flows through the builders: either a Python int
(for example a redundancy value or the info value 1) or a string (a
resolved field value). -/
inductive MVal where
  | i : Int → MVal
  | s : String → MVal
deriving DecidableEq, Repr

/-- Python str() of a metric value, as interpolated into the output line. -/
def MVal.render : MVal → String
  | .i n => toString n
  | .s v => v

/-- map_string_value_to_int from src/mist_exporter.py: a fixed,
case-sensitive token table; anything unmatched is returned unchanged.
An int argument matches no string token and falls through unchanged. -/
def map_string_value_to_int (metric_value : MVal) : MVal :=
  match metric_value with
  | .s m =>
    if m ∈ ["connected", "false", "FullyRedundant"] then .i 0
    else if m ∈ ["disconnected", "true"] then .i 1
    else if m ∈ ["upgrading"] then .i 2
    else if m ∈ ["restarting"] then .i 3
    else .s m
  | .i n => .i n

/-- Python str.join with a separator, structurally. -/
def pyJoin (sep : String) : List String → String
  | [] => ""
  | [x] => x
  | x :: y :: rest => x ++ sep ++ pyJoin sep (y :: rest)

/-- format_metric from src/mist_exporter.py: renders one exposition line
name, labels in braces, a space, then the value.  The metric name and the
label keys are lowercased; label values are interpolated as is; an empty
label collection renders empty braces. -/
def format_metric (metric_name : String) (labeldict : List (String × String))
    (value : MVal) : String :=
  let string_labels :=
    if labeldict.isEmpty then ""
    else pyJoin ", " (labeldict.map (fun x => lowerStr x.1 ++ "=\"" ++ x.2 ++ "\""))
  lowerStr metric_name ++ "\x7b" ++ string_labels ++ "\x7d " ++ MVal.render value

/-- Modelled from the spec: the Metric Formatter contract of section 4.3,
stated in its own words - one line of the shape name, open brace, the
comma-and-space separated lowercased-key equals quoted-value pairs, close
brace, space, value.  Used only as the refinement target for format_metric. -/
def format_metric_spec (metric_name : String) (labeldict : List (String × String))
    (value : MVal) : String :=
  lowerStr metric_name ++ "\x7b" ++
    pyJoin ", " (labeldict.map (fun x => lowerStr x.1 ++ "=\"" ++ x.2 ++ "\"")) ++
    "\x7d " ++ MVal.render value

/-- A resolver call as the builders use it: the returned string, or a
propagating exception modelled in the Except monad. -/
def getv (d : JVal) (path : String) : Except Unit String :=
  match get_value_from_path_str d path with
  | .val s => .ok s
  | .err => .error ()

/-- get_psu_redundancy from src/mist_exporter.py: 0 exactly when the
resolved power-supply redundancy state is the string fullyredundant,
otherwise 1 (also when the state is absent and the resolver returned the
marker "False"). -/
def get_psu_redundancy (device_json : JVal) : Except Unit Int := do
  let value ← getv device_json "sensor_stat.redundancies.PS.state"
  if value == "fullyredundant" then pure 0 else pure 1

/-- get_fan_redundancy from src/mist_exporter.py: same check on the fan
redundancy state. -/
def get_fan_redundancy (device_json : JVal) : Except Unit Int := do
  let value ← getv device_json "sensor_stat.redundancies.Fan.state"
  if value == "fullyredundant" then pure 0 else pure 1

/-- One schema entry as built in the Python metric_list literals:
metric name, resolved value, extra labels. -/
def SchemaItem : Type := String × MVal × List (String × String)

/-- The metric_list literal of get_edge_metrics, with every resolver call
made in the source order of the list display. -/
def edge_metric_list (device : JVal) : Except Unit (List SchemaItem) := do
  let uptime ← getv device "uptime"
  let status ← getv device "status"
  let cpu ← getv device "cpu_stat.usage"
  let mem ← getv device "memory_stat.usage"
  let t1 ← getv device "sensor_stat.temperatures.CPU1.degree"
  let t2 ← getv device "sensor_stat.temperatures.CPU2.degree"
  let te ← getv device "sensor_stat.temperatures.Exhaust.degree"
  let ti ← getv device "sensor_stat.temperatures.Inlet.degree"
  let psu ← get_psu_redundancy device
  let psuState ← getv device "sensor_stat.redundancies.PS.state"
  let fan ← get_fan_redundancy device
  let fanState ← getv device "sensor_stat.redundancies.Fan.state"
  pure [("mist_edge_uptime_seconds", MVal.s uptime, []),
        ("mist_edge_status", MVal.s status, []),
        ("mist_edge_cpu_usage_pct", MVal.s cpu, []),
        ("mist_edge_memory_usage_pct", MVal.s mem, []),
        ("mist_edge_temperatures_degree", MVal.s t1, [("component", "cpu1")]),
        ("mist_edge_temperatures_degree", MVal.s t2, [("component", "cpu2")]),
        ("mist_edge_temperatures_degree", MVal.s te, [("component", "exhaust")]),
        ("mist_edge_temperatures_degree", MVal.s ti, [("component", "inlet")]),
        ("mist_edge_psu_redundancies", MVal.i psu, [("redundancy", psuState)]),
        ("mist_edge_fan_redundancies", MVal.i fan, [("redundancy", fanState)])]

/-- The per-item emission step of the get_edge_metrics loop: a value equal
to the string "False" renders 0, gains the error label and a debug log
line; any other value goes through map_string_value_to_int.  Returns the
formatted line and the log messages it produced. -/
def emit_edge_item (device_name : String) (item : SchemaItem) :
    String × List String :=
  let name := item.1
  let value := item.2.1
  let device_labels := item.2.2
  if value == MVal.s "False" then
    (format_metric name
      ([("hostname", upperStr device_name)] ++ device_labels ++
        [("error", "Metric not found")]) (MVal.i 0),
      [device_name ++ " - Metric " ++ name ++ " not found for device. Setting 0 value."])
  else
    (format_metric name ([("hostname", upperStr device_name)] ++ device_labels)
      (map_string_value_to_int value), [])

/-- The body of the per-device loop of get_edge_metrics: resolve the name,
skip the device when the name is empty (Python truthiness of a string),
otherwise build the schema items, the info line from serial_no and model,
and one line per schema item.  Returns the lines and log messages of this
device. -/
def process_edge_device (device : JVal) : Except Unit (List String × List String) := do
  let device_name ← getv device "name"
  if device_name == "" then
    pure ([], [])
  else do
    let items ← edge_metric_list device
    let serial ← getv device "serial_no"
    let model ← getv device "model"
    let info := format_metric "mist_edge_info"
      [("serial", serial), ("model", model), ("hostname", upperStr device_name)]
      (MVal.i 1)
    let emitted := items.map (emit_edge_item device_name)
    pure (info :: emitted.map Prod.fst, (emitted.map Prod.snd).flatten)

/-- The per-device loop of get_edge_metrics over the whole device list. -/
def process_edge_devices : List JVal → Except Unit (List String × List String)
  | [] => pure ([], [])
  | d :: rest => do
    let p1 ← process_edge_device d
    let p2 ← process_edge_devices rest
    pure (p1.1 ++ p2.1, p1.2 ++ p2.2)

/-- get_edge_metrics from src/mist_exporter.py, given the already-fetched
device list: the per-device lines followed by the two summary count lines,
whose counts are taken before the summary lines are appended. -/
def get_edge_metrics (devices : List JVal) : Except Unit (List String × List String) := do
  let body ← process_edge_devices devices
  let device_count : Int := devices.length
  let metric_count : Int := body.1.length
  pure (body.1 ++
          [format_metric "mist_edge_total_count" [] (MVal.i device_count),
           format_metric "mist_edge_metric_total_count" [] (MVal.i metric_count)],
        body.2 ++
          ["Got " ++ toString metric_count ++ " metrics for " ++
            toString device_count ++ " edge device(s) from API"])

/-- The metric_list literal of get_device_metrics, with every resolver
call made in the source order of the list display. -/
def ap_metric_list (device : JVal) : Except Unit (List SchemaItem) := do
  let uptime ← getv device "uptime"
  let status ← getv device "status"
  let power ← getv device "power_constrained"
  let lastSeen ← getv device "last_seen"
  let numClients ← getv device "num_clients"
  let tx ← getv device "port_stat.eth0.tx_bytes"
  let rx ← getv device "port_stat.eth0.rx_bytes"
  let b6 ← getv device "radio_stat.band_6.util_all"
  let b5 ← getv device "radio_stat.band_5.util_all"
  let b24 ← getv device "radio_stat.band_24.util_all"
  pure [("mist_device_uptime_seconds", MVal.s uptime, []),
        ("mist_device_status", MVal.s status, []),
        ("mist_device_power_constrained", MVal.s power, []),
        ("mist_device_last_seen_seconds", MVal.s lastSeen, []),
        ("mist_device_num_clients", MVal.s numClients, []),
        ("mist_device_port_stat_tx_bytes", MVal.s tx, [("ifName", "eth0")]),
        ("mist_device_port_stat_rx_bytes", MVal.s rx, [("ifName", "eth0")]),
        ("mist_device_radio_stat_util_all", MVal.s b6, [("band", "6")]),
        ("mist_device_radio_stat_util_all", MVal.s b5, [("band", "5")]),
        ("mist_device_radio_stat_util_all", MVal.s b24, [("band", "24")])]

/-- The per-item emission step of the get_device_metrics loop: like the
edge loop but without the error label on absent values (the device
builder only logs). -/
def emit_ap_item (device_name : String) (item : SchemaItem) :
    String × List String :=
  let name := item.1
  let value := item.2.1
  let device_labels := item.2.2
  let labels_merged := [("hostname", upperStr device_name)] ++ device_labels
  if value == MVal.s "False" then
    (format_metric name labels_merged (MVal.i 0),
      [device_name ++ " - Metric " ++ name ++ " not found for device. Setting 0 value."])
  else
    (format_metric name labels_merged (map_string_value_to_int value), [])

/-- The body of the per-device loop of get_device_metrics: resolve the
name, skip the device when the name is empty, otherwise build the schema
items, the info line from serial, model and hw_rev, and one line per
schema item. -/
def process_ap_device (device : JVal) : Except Unit (List String × List String) := do
  let device_name ← getv device "name"
  if device_name == "" then
    pure ([], [])
  else do
    let items ← ap_metric_list device
    let serial ← getv device "serial"
    let model ← getv device "model"
    let hwRev ← getv device "hw_rev"
    let info := format_metric "mist_device_info"
      [("serial", serial), ("model", model), ("hw_rev", hwRev),
       ("hostname", upperStr device_name)] (MVal.i 1)
    let emitted := items.map (emit_ap_item device_name)
    pure (info :: emitted.map Prod.fst, (emitted.map Prod.snd).flatten)

/-- The per-device loop of get_device_metrics over the whole device list. -/
def process_ap_devices : List JVal → Except Unit (List String × List String)
  | [] => pure ([], [])
  | d :: rest => do
    let p1 ← process_ap_device d
    let p2 ← process_ap_devices rest
    pure (p1.1 ++ p2.1, p1.2 ++ p2.2)

/-- get_device_metrics from src/mist_exporter.py, given the already
fetched device list: a leading HELP comment line, the per-device lines,
then the two summary count lines.  The metric count is the length of the
accumulated list before the summaries, which includes the comment line. -/
def get_device_metrics (devices : List JVal) : Except Unit (List String × List String) := do
  let body ← process_ap_devices devices
  let lines := "# HELP mist_device Mist device metrics" :: body.1
  let device_count : Int := devices.length
  let metric_count : Int := lines.length
  pure (lines ++
          [format_metric "mist_device_total_count" [] (MVal.i device_count),
           format_metric "mist_device_metric_total_count" [] (MVal.i metric_count)],
        body.2 ++
          ["Got " ++ toString metric_count ++ " metrics for " ++
            toString device_count ++ " AP device(s) from API"])

/-- test_status_code from src/mist_exporter.py: raise unless the HTTP
status code is 200. -/
def test_status_code (status_code : Nat) : Except Unit Unit :=
  if status_code != 200 then .error () else .ok ()

/-- The body of the try block of main, with the network fetches abstracted
as Except-valued inputs: sites fetch, devices fetch, edges fetch, in the
source evaluation order (sites, devices, device metrics, edge fetch, edge
metrics), ending with the success status line. -/
def run_pipeline (sitesR : Except Unit Unit)
    (devicesR edgesR : Except Unit (List JVal)) : Except Unit (List String) := do
  let _ ← sitesR
  let devices ← devicesR
  let dm ← get_device_metrics devices
  let edges ← edgesR
  let em ← get_edge_metrics edges
  pure (dm.1 ++ em.1 ++ ["mist_exporter_status 1"])

/-- main from src/mist_exporter.py, as the list of lines written to
standard output: the pipeline result on success, and on any exception the
single failure status line. -/
def main_output (sitesR : Except Unit Unit)
    (devicesR edgesR : Except Unit (List JVal)) : List String :=
  match run_pipeline sitesR devicesR edgesR with
  | .ok ls => ls
  | .error _ => ["mist_exporter_status 0"]

/-- Whether a line is one of the two status lines. -/
def statusB (l : String) : Bool :=
  l == "mist_exporter_status 1" || l == "mist_exporter_status 0"

/- Basic facts about the Except monad used to invert the builders. -/

theorem ok_bind {α β : Type} (a : α) (f : α → Except Unit β) :
    (Except.ok a >>= f) = f a := rfl

theorem error_bind {α β : Type} (f : α → Except Unit β) :
    ((Except.error () : Except Unit α) >>= f) = Except.error () := rfl

theorem bind_eq_ok {α β : Type} {x : Except Unit α} {f : α → Except Unit β}
    {b : β} : (x >>= f) = Except.ok b ↔ ∃ a, x = Except.ok a ∧ f a = Except.ok b := by
  cases x with
  | error e => cases e; simp [error_bind]
  | ok a => simp [ok_bind]

theorem pure_eq_ok {α : Type} (a : α) : (pure a : Except Unit α) = Except.ok a := rfl

/- Lowercasing facts. -/

theorem lowerStr_no_upper (s : String) :
    ∀ c ∈ (lowerStr s).data, isUpperAscii c = false := by
  intro c hc
  simp only [lowerStr, List.mem_map] at hc
  obtain ⟨a, _, rfl⟩ := hc
  exact isUpperAscii_lowerChar a

theorem lowerStr_ne_of_upper_mem (s t : String) (c : Char)
    (hct : c ∈ t.data) (hcu : isUpperAscii c = true) : lowerStr s ≠ t := by
  intro h
  have hd : c ∈ (lowerStr s).data := by rw [h]; exact hct
  have := lowerStr_no_upper s c hd
  rw [this] at hcu
  exact Bool.noConfusion hcu

theorem lowerStr_ne_marker (s : String) : lowerStr s ≠ "False" :=
  lowerStr_ne_of_upper_mem s "False" 'F' (by decide) (by decide)

/- Characterization of the path resolver by the pure traversal. -/

theorem gvfp_renderTrav (parts : List String) (d : JVal) (h : parts ≠ []) :
    get_value_from_path d parts = renderTrav (travOut d parts) := by
  induction parts generalizing d with
  | nil => exact absurd rfl h
  | cons k rest ih =>
    cases rest with
    | nil =>
      cases d with
      | obj kvs =>
        cases hg : pyDictGet kvs k with
        | some v => simp [get_value_from_path, travOut, renderTrav, hg]
        | none => simp [get_value_from_path, travOut, renderTrav, hg]
      | arr vs => simp [get_value_from_path, travOut, renderTrav]
      | str s => simp [get_value_from_path, travOut, renderTrav]
      | num n => simp [get_value_from_path, travOut, renderTrav]
      | bool b => simp [get_value_from_path, travOut, renderTrav]
      | null => simp [get_value_from_path, travOut, renderTrav]
    | cons k2 rs =>
      cases d with
      | obj kvs =>
        cases hg : pyDictGet kvs k with
        | some v =>
          simp only [get_value_from_path, travOut, hg]
          exact ih v (by simp)
        | none => simp [get_value_from_path, travOut, renderTrav, hg]
      | arr vs => simp [get_value_from_path, travOut, renderTrav]
      | str s => simp [get_value_from_path, travOut, renderTrav]
      | num n => simp [get_value_from_path, travOut, renderTrav]
      | bool b => simp [get_value_from_path, travOut, renderTrav]
      | null => simp [get_value_from_path, travOut, renderTrav]

theorem gvfp_marker_iff (parts : List String) (d : JVal) (h : parts ≠ []) :
    get_value_from_path d parts = PResult.val "False" ↔
      travOut d parts = TravOut.missingKey := by
  rw [gvfp_renderTrav parts d h]
  cases ht : travOut d parts with
  | leaf v =>
    simp only [renderTrav]
    constructor
    · intro hv
      exact absurd (PResult.val.inj hv) (lowerStr_ne_marker (pyStr v))
    · intro hv; exact TravOut.noConfusion hv
  | missingKey => simp [renderTrav]
  | nonDict => simp [renderTrav]

theorem splitDotChars_ne_nil (cs : List Char) : splitDotChars cs ≠ [] := by
  cases cs with
  | nil => simp [splitDotChars]
  | cons c rest =>
    simp only [splitDotChars]
    by_cases hc : c == '.'
    · simp [hc]
    · simp only [hc, if_false]
      cases hsp : splitDotChars rest <;> simp

theorem pySplitDot_ne_nil (s : String) : pySplitDot s ≠ [] := by
  simp only [pySplitDot, ne_eq, List.map_eq_nil_iff]
  exact splitDotChars_ne_nil s.data

/-- Claim C1, counterexample: on the record with field a holding the
number 5 and the path a.b, get_value_from_path raises an uncaught
TypeError (the intermediate value 5 is not a traversable container), so it
neither returns the absent marker nor any string, contradicting the claim
that it never raises to its caller. -/
theorem c1_counterexample :
    get_value_from_path_str (JVal.obj [("a", JVal.num 5)]) "a.b" = PResult.err ∧
    PResult.err ≠ PResult.val "False" := ⟨rfl, by decide⟩

/-- Claim C1, amended: for every record and dotted field path,
get_value_from_path either returns a string or raises.  It returns the
absent marker "False" exactly when traversal reaches a mapping that lacks
the next segment; it returns the lowercase string rendering of the leaf
(regardless of the original type of the leaf) when the path fully
traverses through mappings; and it raises an uncaught TypeError, rather
than returning the absent marker, whenever traversal reaches a value that
is not a mapping before the path is resolved. -/
theorem c1_path_resolver_characterization (d : JVal) (path : String) :
    get_value_from_path_str d path = renderTrav (travOut d (pySplitDot path)) ∧
    (get_value_from_path_str d path = PResult.val "False" ↔
      travOut d (pySplitDot path) = TravOut.missingKey) :=
  ⟨gvfp_renderTrav (pySplitDot path) d (pySplitDot_ne_nil path),
   gvfp_marker_iff (pySplitDot path) d (pySplitDot_ne_nil path)⟩

/-- Claim C10: every string the path resolver returns is either the absent
marker "False" or contains no uppercase ASCII character; consequently it
never equals the mixed-case token "FullyRedundant", a resolver-produced
value can only be normalized to 0 through the lowercase tokens connected
or false, and a present (fully traversed) value never equals the absent
marker. -/
theorem c10_resolver_values_lowercase (d : JVal) (parts : List String) (s : String)
    (h : get_value_from_path d parts = PResult.val s) :
    (s = "False" ∨ ∀ c ∈ s.data, isUpperAscii c = false) ∧
    s ≠ "FullyRedundant" ∧
    (map_string_value_to_int (MVal.s s) = MVal.i 0 → s = "connected" ∨ s = "false") ∧
    (∀ v, travOut d parts = TravOut.leaf v → s ≠ "False") := by
  have hne : parts ≠ [] := by
    intro hp
    rw [hp] at h
    exact PResult.noConfusion h
  rw [gvfp_renderTrav parts d hne] at h
  have hfr : s ≠ "FullyRedundant" := by
    cases ht : travOut d parts with
    | leaf v =>
      rw [ht] at h
      simp only [renderTrav] at h
      have := PResult.val.inj h
      rw [← this]
      exact lowerStr_ne_of_upper_mem (pyStr v) "FullyRedundant" 'F' (by decide) (by decide)
    | missingKey =>
      rw [ht] at h
      simp only [renderTrav] at h
      have := PResult.val.inj h
      rw [← this]
      decide
    | nonDict =>
      rw [ht] at h
      exact PResult.noConfusion h
  refine ⟨?_, hfr, ?_, ?_⟩
  · cases ht : travOut d parts with
    | leaf v =>
      rw [ht] at h
      simp only [renderTrav] at h
      have hs := PResult.val.inj h
      right
      rw [← hs]
      exact lowerStr_no_upper (pyStr v)
    | missingKey =>
      rw [ht] at h
      simp only [renderTrav] at h
      exact Or.inl (PResult.val.inj h).symm
    | nonDict =>
      rw [ht] at h
      exact PResult.noConfusion h
  · intro hm
    by_cases h1 : s ∈ ["connected", "false", "FullyRedundant"]
    · simp only [List.mem_cons, List.mem_singleton, List.not_mem_nil, or_false] at h1
      rcases h1 with h1 | h1 | h1
      · exact Or.inl h1
      · exact Or.inr h1
      · exact absurd h1 hfr
    · exfalso
      simp only [map_string_value_to_int, h1, if_false] at hm
      split_ifs at hm <;> simp_all
  · intro v hv
    rw [hv] at h
    simp only [renderTrav] at h
    have hs := PResult.val.inj h
    rw [← hs]
    exact lowerStr_ne_marker (pyStr v)

/-- Claim C10, witness: on a record whose status field holds the
mixed-case string Connected, the resolver returns the lowercased value
connected, which is not the token FullyRedundant. -/
theorem c10_resolver_values_lowercase_witness :
    get_value_from_path (JVal.obj [("status", JVal.str "Connected")]) ["status"] =
      PResult.val "connected" ∧ "connected" ≠ "FullyRedundant" :=
  ⟨rfl, (c10_resolver_values_lowercase
      (JVal.obj [("status", JVal.str "Connected")]) ["status"] "connected" rfl).2.1⟩

/-- Claim C7: the Value Normalizer maps its seven known tokens to the
fixed small non-negative integers of its table, case-sensitively on the
raw token, and returns any other string unchanged. -/
theorem c7_value_normalizer_table :
    map_string_value_to_int (MVal.s "connected") = MVal.i 0 ∧
    map_string_value_to_int (MVal.s "false") = MVal.i 0 ∧
    map_string_value_to_int (MVal.s "FullyRedundant") = MVal.i 0 ∧
    map_string_value_to_int (MVal.s "disconnected") = MVal.i 1 ∧
    map_string_value_to_int (MVal.s "true") = MVal.i 1 ∧
    map_string_value_to_int (MVal.s "upgrading") = MVal.i 2 ∧
    map_string_value_to_int (MVal.s "restarting") = MVal.i 3 ∧
    (∀ s : String,
      s ∉ ["connected", "false", "FullyRedundant", "disconnected", "true",
           "upgrading", "restarting"] →
      map_string_value_to_int (MVal.s s) = MVal.s s) := by
  refine ⟨by decide, by decide, by decide, by decide, by decide, by decide, by decide, ?_⟩
  intro s hs
  simp only [List.mem_cons, List.not_mem_nil, or_false, not_or] at hs
  obtain ⟨h1, h2, h3, h4, h5, h6, h7⟩ := hs
  simp [map_string_value_to_int, h1, h2, h3, h4, h5, h6, h7]

/-- Claim C7, witness: the all-lowercase redundancy state fullyredundant
is not in the table and passes through unchanged (the lookup is
case-sensitive). -/
theorem c7_value_normalizer_table_witness :
    map_string_value_to_int (MVal.s "fullyredundant") = MVal.s "fullyredundant" :=
  c7_value_normalizer_table.2.2.2.2.2.2.2 "fullyredundant" (by decide)

/-- Strings with no newline character. -/
abbrev noNL (s : String) : Prop := ∀ c ∈ s.data, c ≠ '\n'

theorem noNL_append (s t : String) (hs : noNL s) (ht : noNL t) : noNL (s ++ t) := by
  intro c hc
  rw [String.data_append] at hc
  rcases List.mem_append.mp hc with h | h
  · exact hs c h
  · exact ht c h

theorem lowerChar_ne_nl (a : Char) (ha : a ≠ '\n') : lowerChar a ≠ '\n' := by
  unfold lowerChar
  cases h : upperLower.find? (fun p => p.1 == a) with
  | none => simpa using ha
  | some p =>
    simp only [Option.map_some', Option.getD_some]
    have hmem := List.mem_of_find?_eq_some h
    have hall : ∀ q ∈ upperLower, q.2 ≠ '\n' := by decide
    exact hall p hmem

theorem noNL_lowerStr (s : String) (hs : noNL s) : noNL (lowerStr s) := by
  intro c hc
  simp only [lowerStr, List.mem_map] at hc
  obtain ⟨a, ha, rfl⟩ := hc
  exact lowerChar_ne_nl a (hs a ha)

theorem noNL_pyJoin (sep : String) (items : List String) (hsep : noNL sep)
    (hall : ∀ x ∈ items, noNL x) : noNL (pyJoin sep items) := by
  induction items with
  | nil => intro c hc; exact absurd hc (by simp [pyJoin, String.data])
  | cons x rest ih =>
    cases rest with
    | nil => exact fun c hc => hall x (by simp) c hc
    | cons y ys =>
      simp only [pyJoin]
      refine noNL_append _ _ (noNL_append _ _ (hall x (by simp)) hsep) ?_
      exact ih (fun z hz => hall z (List.mem_cons_of_mem x hz))

/-- Claim C9: the Metric Formatter realizes exactly the line shape of the
spec (lowercased name, lowercased label keys, comma-space separated quoted
label values in braces, then a space and the value); the empty label set
yields empty braces; under newline-free inputs the output is a single
line; and identical inputs produce an identical string. -/
theorem c9_format_metric_form (n : String) (ls : List (String × String)) (v : MVal) :
    format_metric n ls v = format_metric_spec n ls v ∧
    format_metric n [] v = lowerStr n ++ "\x7b\x7d " ++ MVal.render v ∧
    (noNL n → (∀ p ∈ ls, noNL p.1 ∧ noNL p.2) → noNL (MVal.render v) →
      noNL (format_metric n ls v)) ∧
    (∀ n2 ls2 v2, n = n2 → ls = ls2 → v = v2 →
      format_metric n ls v = format_metric n2 ls2 v2) := by
  refine ⟨?_, ?_, ?_, ?_⟩
  · cases ls with
    | nil => rfl
    | cons p ps => rfl
  · simp only [format_metric, List.isEmpty_nil, if_pos, String.append_empty,
      String.append_assoc]
    rfl
  · intro hn hls hv
    have hform : format_metric n ls v = format_metric_spec n ls v := by
      cases ls with
      | nil => rfl
      | cons p ps => rfl
    rw [hform]
    unfold format_metric_spec
    refine noNL_append _ _ (noNL_append _ _ (noNL_append _ _ (noNL_append _ _
      (noNL_lowerStr n hn) (by decide)) ?_) (by decide)) hv
    refine noNL_pyJoin ", " _ (by decide) ?_
    intro x hx
    simp only [List.mem_map] at hx
    obtain ⟨p, hp, rfl⟩ := hx
    exact noNL_append _ _ (noNL_append _ _ (noNL_append _ _
      (noNL_lowerStr p.1 (hls p hp).1) (by decide)) (hls p hp).2) (by decide)
  · intro n2 ls2 v2 h1 h2 h3
    rw [h1, h2, h3]

/-- Claim C9, witness: a concrete call with a mixed-case name and label
key renders the expected single line, and contains no newline. -/
theorem c9_format_metric_form_witness :
    format_metric "Mist_Device_Status" [("HostName", "AP-1")] (MVal.i 0) =
      "mist_device_status\x7bhostname=\"AP-1\"\x7d 0" ∧
    ('\n' ∉ (format_metric "Mist_Device_Status" [("HostName", "AP-1")]
      (MVal.i 0)).data) := by
  constructor
  · rfl
  · intro hmem
    exact (c9_format_metric_form "Mist_Device_Status" [("HostName", "AP-1")]
      (MVal.i 0)).2.2.1 (by decide) (by decide) (by decide) '\n' hmem rfl

/-- The evaluated schema items of one edge device in terms of its resolved
field values (psu and fan values already derived from the two redundancy
states). -/
def edge_items (u st cpu mem t1 t2 te ti ps fs : String) : List SchemaItem :=
  [("mist_edge_uptime_seconds", MVal.s u, []),
   ("mist_edge_status", MVal.s st, []),
   ("mist_edge_cpu_usage_pct", MVal.s cpu, []),
   ("mist_edge_memory_usage_pct", MVal.s mem, []),
   ("mist_edge_temperatures_degree", MVal.s t1, [("component", "cpu1")]),
   ("mist_edge_temperatures_degree", MVal.s t2, [("component", "cpu2")]),
   ("mist_edge_temperatures_degree", MVal.s te, [("component", "exhaust")]),
   ("mist_edge_temperatures_degree", MVal.s ti, [("component", "inlet")]),
   ("mist_edge_psu_redundancies", MVal.i (if ps == "fullyredundant" then 0 else 1),
     [("redundancy", ps)]),
   ("mist_edge_fan_redundancies", MVal.i (if fs == "fullyredundant" then 0 else 1),
     [("redundancy", fs)])]

/-- The evaluated schema items of one access-point device in terms of its
resolved field values. -/
def ap_items (u st pw lastSeen ncl tx rx b6 b5 b24 : String) : List SchemaItem :=
  [("mist_device_uptime_seconds", MVal.s u, []),
   ("mist_device_status", MVal.s st, []),
   ("mist_device_power_constrained", MVal.s pw, []),
   ("mist_device_last_seen_seconds", MVal.s lastSeen, []),
   ("mist_device_num_clients", MVal.s ncl, []),
   ("mist_device_port_stat_tx_bytes", MVal.s tx, [("ifName", "eth0")]),
   ("mist_device_port_stat_rx_bytes", MVal.s rx, [("ifName", "eth0")]),
   ("mist_device_radio_stat_util_all", MVal.s b6, [("band", "6")]),
   ("mist_device_radio_stat_util_all", MVal.s b5, [("band", "5")]),
   ("mist_device_radio_stat_util_all", MVal.s b24, [("band", "24")])]

/-- The info line of one edge device. -/
def edge_info_line (nm ser mo : String) : String :=
  format_metric "mist_edge_info"
    [("serial", ser), ("model", mo), ("hostname", upperStr nm)] (MVal.i 1)

/-- The info line of one access-point device. -/
def ap_info_line (nm ser mo hw : String) : String :=
  format_metric "mist_device_info"
    [("serial", ser), ("model", mo), ("hw_rev", hw), ("hostname", upperStr nm)]
    (MVal.i 1)

theorem if_pure_int (b : Bool) (x y : Int) :
    (if b then (pure x : Except Unit Int) else pure y) = pure (if b then x else y) := by
  cases b <;> rfl

theorem if_ok_int (b : Bool) (x y : Int) :
    (if b = true then (Except.ok x : Except Unit Int) else Except.ok y) =
      Except.ok (if b = true then x else y) := by
  cases b <;> rfl

/-- Forward evaluation of the per-device edge loop body when every
resolver call returns and the name is non-empty. -/
theorem process_edge_device_eq (device : JVal)
    (nm u st cpu mem t1 t2 te ti ps fs ser mo : String)
    (hname : getv device "name" = Except.ok nm) (hne : nm ≠ "")
    (hu : getv device "uptime" = Except.ok u)
    (hst : getv device "status" = Except.ok st)
    (hcpu : getv device "cpu_stat.usage" = Except.ok cpu)
    (hmem : getv device "memory_stat.usage" = Except.ok mem)
    (ht1 : getv device "sensor_stat.temperatures.CPU1.degree" = Except.ok t1)
    (ht2 : getv device "sensor_stat.temperatures.CPU2.degree" = Except.ok t2)
    (hte : getv device "sensor_stat.temperatures.Exhaust.degree" = Except.ok te)
    (hti : getv device "sensor_stat.temperatures.Inlet.degree" = Except.ok ti)
    (hps : getv device "sensor_stat.redundancies.PS.state" = Except.ok ps)
    (hfs : getv device "sensor_stat.redundancies.Fan.state" = Except.ok fs)
    (hser : getv device "serial_no" = Except.ok ser)
    (hmo : getv device "model" = Except.ok mo) :
    process_edge_device device = Except.ok
      (edge_info_line nm ser mo ::
        (((edge_items u st cpu mem t1 t2 te ti ps fs).map (emit_edge_item nm)).map
          Prod.fst),
       ((((edge_items u st cpu mem t1 t2 te ti ps fs).map (emit_edge_item nm)).map
          Prod.snd)).flatten) := by
  have hb : (nm == "") = false := by simpa using hne
  unfold process_edge_device edge_metric_list get_psu_redundancy get_fan_redundancy
  simp only [hname, hu, hst, hcpu, hmem, ht1, ht2, hte, hti, hps, hfs, hser, hmo,
    ok_bind, if_pure_int, if_ok_int, pure_eq_ok, hb, Bool.false_eq_true, if_false]
  rfl

/-- Forward evaluation of the per-device access-point loop body when every
resolver call returns and the name is non-empty. -/
theorem process_ap_device_eq (device : JVal)
    (nm u st pw lastSeen ncl tx rx b6 b5 b24 ser mo hw : String)
    (hname : getv device "name" = Except.ok nm) (hne : nm ≠ "")
    (hu : getv device "uptime" = Except.ok u)
    (hst : getv device "status" = Except.ok st)
    (hpw : getv device "power_constrained" = Except.ok pw)
    (hls : getv device "last_seen" = Except.ok lastSeen)
    (hnc : getv device "num_clients" = Except.ok ncl)
    (htx : getv device "port_stat.eth0.tx_bytes" = Except.ok tx)
    (hrx : getv device "port_stat.eth0.rx_bytes" = Except.ok rx)
    (hb6 : getv device "radio_stat.band_6.util_all" = Except.ok b6)
    (hb5 : getv device "radio_stat.band_5.util_all" = Except.ok b5)
    (hb24 : getv device "radio_stat.band_24.util_all" = Except.ok b24)
    (hser : getv device "serial" = Except.ok ser)
    (hmo : getv device "model" = Except.ok mo)
    (hhw : getv device "hw_rev" = Except.ok hw) :
    process_ap_device device = Except.ok
      (ap_info_line nm ser mo hw ::
        (((ap_items u st pw lastSeen ncl tx rx b6 b5 b24).map (emit_ap_item nm)).map
          Prod.fst),
       ((((ap_items u st pw lastSeen ncl tx rx b6 b5 b24).map (emit_ap_item nm)).map
          Prod.snd)).flatten) := by
  have hb : (nm == "") = false := by simpa using hne
  unfold process_ap_device ap_metric_list
  simp only [hname, hu, hst, hpw, hls, hnc, htx, hrx, hb6, hb5, hb24, hser, hmo,
    hhw, ok_bind, pure_eq_ok, hb, Bool.false_eq_true, if_false]
  rfl

/-- Inversion of the edge loop body: a successful run on a device with a
non-empty name must have produced the info line followed by the emitted
schema lines. -/
theorem process_edge_device_ok_inv (device : JVal) (nm : String)
    (p : List String × List String)
    (hname : getv device "name" = Except.ok nm) (hne : nm ≠ "")
    (hp : process_edge_device device = Except.ok p) :
    ∃ items ser mo, edge_metric_list device = Except.ok items ∧
      getv device "serial_no" = Except.ok ser ∧
      getv device "model" = Except.ok mo ∧
      p = (edge_info_line nm ser mo ::
             ((items.map (emit_edge_item nm)).map Prod.fst),
           (((items.map (emit_edge_item nm)).map Prod.snd)).flatten) := by
  have hb : (nm == "") = false := by simpa using hne
  unfold process_edge_device at hp
  rw [hname, ok_bind, hb] at hp
  simp only [Bool.false_eq_true, if_false] at hp
  rcases bind_eq_ok.mp hp with ⟨items, hitems, hp⟩
  rcases bind_eq_ok.mp hp with ⟨ser, hser, hp⟩
  rcases bind_eq_ok.mp hp with ⟨mo, hmo, hp⟩
  rw [pure_eq_ok] at hp
  exact ⟨items, ser, mo, hitems, hser, hmo, (Except.ok.inj hp).symm⟩

/-- Inversion of the access-point loop body: a successful run on a device
with a non-empty name must have produced the info line followed by the
emitted schema lines. -/
theorem process_ap_device_ok_inv (device : JVal) (nm : String)
    (p : List String × List String)
    (hname : getv device "name" = Except.ok nm) (hne : nm ≠ "")
    (hp : process_ap_device device = Except.ok p) :
    ∃ items ser mo hw, ap_metric_list device = Except.ok items ∧
      getv device "serial" = Except.ok ser ∧
      getv device "model" = Except.ok mo ∧
      getv device "hw_rev" = Except.ok hw ∧
      p = (ap_info_line nm ser mo hw ::
             ((items.map (emit_ap_item nm)).map Prod.fst),
           (((items.map (emit_ap_item nm)).map Prod.snd)).flatten) := by
  have hb : (nm == "") = false := by simpa using hne
  unfold process_ap_device at hp
  rw [hname, ok_bind, hb] at hp
  simp only [Bool.false_eq_true, if_false] at hp
  rcases bind_eq_ok.mp hp with ⟨items, hitems, hp⟩
  rcases bind_eq_ok.mp hp with ⟨ser, hser, hp⟩
  rcases bind_eq_ok.mp hp with ⟨mo, hmo, hp⟩
  rcases bind_eq_ok.mp hp with ⟨hw, hhw, hp⟩
  rw [pure_eq_ok] at hp
  exact ⟨items, ser, mo, hw, hitems, hser, hmo, hhw, (Except.ok.inj hp).symm⟩

/-- Claim C3, counterexample: a record with no name field at all resolves
its name to the marker string "False", which is truthy in Python, so both
builders fully process the entity instead of skipping it: the edge builder
emits eleven lines for it, with the hostname label FALSE on the info
line. -/
theorem c3_counterexample :
    getv (JVal.obj []) "name" = Except.ok "False" ∧
    Except.map (fun p => p.1.length) (process_edge_device (JVal.obj [])) =
      Except.ok 11 ∧
    Except.map (fun p => p.1.length) (process_ap_device (JVal.obj [])) =
      Except.ok 11 ∧
    Except.map (fun p => p.1.head?) (process_edge_device (JVal.obj [])) =
      Except.ok (some ("mist_edge_info\x7bserial=\"False\", model=\"False\", " ++
        "hostname=\"FALSE\"\x7d 1")) :=
  ⟨rfl, rfl, rfl, rfl⟩

/-- Claim C3, amended: a builder skips an entity exactly when its name
field resolves to the empty string (a present but empty name).  An absent
name resolves to the non-empty marker string "False" and the entity is
processed; any processed entity with a non-empty resolved name emits at
least its info line. -/
theorem c3_skip_iff_empty_name (device : JVal) (nm : String)
    (hname : getv device "name" = Except.ok nm) :
    (nm = "" → process_edge_device device = Except.ok ([], []) ∧
      process_ap_device device = Except.ok ([], [])) ∧
    (∀ lines logs, nm ≠ "" →
      process_edge_device device = Except.ok (lines, logs) → lines ≠ []) ∧
    (∀ lines logs, nm ≠ "" →
      process_ap_device device = Except.ok (lines, logs) → lines ≠ []) := by
  refine ⟨?_, ?_, ?_⟩
  · intro h
    subst h
    constructor
    · unfold process_edge_device
      rw [hname, ok_bind]
      rfl
    · unfold process_ap_device
      rw [hname, ok_bind]
      rfl
  · intro lines logs hne hp
    obtain ⟨items, ser, mo, _, _, _, hshape⟩ :=
      process_edge_device_ok_inv device nm (lines, logs) hname hne hp
    have : lines = edge_info_line nm ser mo ::
        ((items.map (emit_edge_item nm)).map Prod.fst) := congrArg Prod.fst hshape
    rw [this]
    exact List.cons_ne_nil _ _
  · intro lines logs hne hp
    obtain ⟨items, ser, mo, hw, _, _, _, _, hshape⟩ :=
      process_ap_device_ok_inv device nm (lines, logs) hname hne hp
    have : lines = ap_info_line nm ser mo hw ::
        ((items.map (emit_ap_item nm)).map Prod.fst) := congrArg Prod.fst hshape
    rw [this]
    exact List.cons_ne_nil _ _

/-- Claim C3, witness: an entity whose name field is present and empty is
skipped by both builders. -/
theorem c3_skip_iff_empty_name_witness :
    process_edge_device (JVal.obj [("name", JVal.str "")]) = Except.ok ([], []) ∧
    process_ap_device (JVal.obj [("name", JVal.str "")]) = Except.ok ([], []) :=
  (c3_skip_iff_empty_name (JVal.obj [("name", JVal.str "")]) "" rfl).1 rfl

/-- A concrete, fully populated edge-gateway record used as witness
input. -/
def edgeDev : JVal :=
  JVal.obj
    [("name", JVal.str "edge1"),
     ("uptime", JVal.num 100),
     ("status", JVal.str "connected"),
     ("cpu_stat", JVal.obj [("usage", JVal.num 12)]),
     ("memory_stat", JVal.obj [("usage", JVal.num 34)]),
     ("sensor_stat", JVal.obj
       [("temperatures", JVal.obj
          [("CPU1", JVal.obj [("degree", JVal.num 40)]),
           ("CPU2", JVal.obj [("degree", JVal.num 41)]),
           ("Exhaust", JVal.obj [("degree", JVal.num 42)]),
           ("Inlet", JVal.obj [("degree", JVal.num 43)])]),
        ("redundancies", JVal.obj
          [("PS", JVal.obj [("state", JVal.str "FullyRedundant")]),
           ("Fan", JVal.obj [("state", JVal.str "fullyredundant")])])]),
     ("serial_no", JVal.str "SN1"),
     ("model", JVal.str "ME-X1")]

/-- A concrete access-point record with the num_clients field missing,
used as witness input. -/
def apDev : JVal :=
  JVal.obj
    [("name", JVal.str "dev1"),
     ("uptime", JVal.num 100),
     ("status", JVal.str "connected"),
     ("power_constrained", JVal.bool false),
     ("last_seen", JVal.num 1700000000),
     ("port_stat", JVal.obj
       [("eth0", JVal.obj [("tx_bytes", JVal.num 5), ("rx_bytes", JVal.num 6)])]),
     ("radio_stat", JVal.obj
       [("band_6", JVal.obj [("util_all", JVal.num 1)]),
        ("band_5", JVal.obj [("util_all", JVal.num 2)]),
        ("band_24", JVal.obj [("util_all", JVal.num 3)])]),
     ("serial", JVal.str "S1"),
     ("model", JVal.str "AP45"),
     ("hw_rev", JVal.str "A")]

/-- Claim C6: for every entity with a non-empty resolved name, each
builder emits exactly one info line (first, with the descriptive labels
and the uppercased hostname, value 1) and exactly ten further lines, one
per schema entry, however many source fields are absent. -/
theorem c6_per_entity_line_counts :
    (∀ device nm u st cpu mem t1 t2 te ti ps fs ser mo lines logs,
      getv device "name" = Except.ok nm → nm ≠ "" →
      getv device "uptime" = Except.ok u →
      getv device "status" = Except.ok st →
      getv device "cpu_stat.usage" = Except.ok cpu →
      getv device "memory_stat.usage" = Except.ok mem →
      getv device "sensor_stat.temperatures.CPU1.degree" = Except.ok t1 →
      getv device "sensor_stat.temperatures.CPU2.degree" = Except.ok t2 →
      getv device "sensor_stat.temperatures.Exhaust.degree" = Except.ok te →
      getv device "sensor_stat.temperatures.Inlet.degree" = Except.ok ti →
      getv device "sensor_stat.redundancies.PS.state" = Except.ok ps →
      getv device "sensor_stat.redundancies.Fan.state" = Except.ok fs →
      getv device "serial_no" = Except.ok ser →
      getv device "model" = Except.ok mo →
      process_edge_device device = Except.ok (lines, logs) →
      lines.length = 11 ∧ lines.head? = some (edge_info_line nm ser mo) ∧
        lines.tail = ((edge_items u st cpu mem t1 t2 te ti ps fs).map
          (emit_edge_item nm)).map Prod.fst) ∧
    (∀ device nm u st pw lastSeen ncl tx rx b6 b5 b24 ser mo hw lines logs,
      getv device "name" = Except.ok nm → nm ≠ "" →
      getv device "uptime" = Except.ok u →
      getv device "status" = Except.ok st →
      getv device "power_constrained" = Except.ok pw →
      getv device "last_seen" = Except.ok lastSeen →
      getv device "num_clients" = Except.ok ncl →
      getv device "port_stat.eth0.tx_bytes" = Except.ok tx →
      getv device "port_stat.eth0.rx_bytes" = Except.ok rx →
      getv device "radio_stat.band_6.util_all" = Except.ok b6 →
      getv device "radio_stat.band_5.util_all" = Except.ok b5 →
      getv device "radio_stat.band_24.util_all" = Except.ok b24 →
      getv device "serial" = Except.ok ser →
      getv device "model" = Except.ok mo →
      getv device "hw_rev" = Except.ok hw →
      process_ap_device device = Except.ok (lines, logs) →
      lines.length = 11 ∧ lines.head? = some (ap_info_line nm ser mo hw) ∧
        lines.tail = ((ap_items u st pw lastSeen ncl tx rx b6 b5 b24).map
          (emit_ap_item nm)).map Prod.fst) := by
  constructor
  · intro device nm u st cpu mem t1 t2 te ti ps fs ser mo lines logs
      hname hne hu hst hcpu hmem ht1 ht2 hte hti hps hfs hser hmo hproc
    rw [process_edge_device_eq device nm u st cpu mem t1 t2 te ti ps fs ser mo
      hname hne hu hst hcpu hmem ht1 ht2 hte hti hps hfs hser hmo] at hproc
    have hpair := Except.ok.inj hproc
    have hlines := congrArg Prod.fst hpair
    simp only at hlines
    rw [← hlines]
    refine ⟨?_, rfl, rfl⟩
    simp [edge_items]
  · intro device nm u st pw lastSeen ncl tx rx b6 b5 b24 ser mo hw lines logs
      hname hne hu hst hpw hls hnc htx hrx hb6 hb5 hb24 hser hmo hhw hproc
    rw [process_ap_device_eq device nm u st pw lastSeen ncl tx rx b6 b5 b24 ser mo hw
      hname hne hu hst hpw hls hnc htx hrx hb6 hb5 hb24 hser hmo hhw] at hproc
    have hpair := Except.ok.inj hproc
    have hlines := congrArg Prod.fst hpair
    simp only at hlines
    rw [← hlines]
    refine ⟨?_, rfl, rfl⟩
    simp [ap_items]

/-- Claim C6, witness: the fully populated concrete edge device produces
exactly eleven lines. -/
theorem c6_per_entity_line_counts_witness :
    (edge_info_line "edge1" "sn1" "me-x1" ::
      ((edge_items "100" "connected" "12" "34" "40" "41" "42" "43"
        "fullyredundant" "fullyredundant").map (emit_edge_item "edge1")).map
        Prod.fst).length = 11 :=
  (c6_per_entity_line_counts.1 edgeDev "edge1" "100" "connected" "12" "34"
    "40" "41" "42" "43" "fullyredundant" "fullyredundant" "sn1" "me-x1"
    _ _ rfl (by decide) rfl rfl rfl rfl rfl rfl rfl rfl rfl rfl rfl rfl rfl).1

theorem emit_edge_item_absent (nm : String) (item : SchemaItem)
    (h : item.2.1 = MVal.s "False") :
    emit_edge_item nm item =
      (format_metric item.1 ([("hostname", upperStr nm)] ++ item.2.2 ++
        [("error", "Metric not found")]) (MVal.i 0),
       [nm ++ " - Metric " ++ item.1 ++ " not found for device. Setting 0 value."]) := by
  unfold emit_edge_item
  rw [h]
  simp

theorem emit_ap_item_absent (nm : String) (item : SchemaItem)
    (h : item.2.1 = MVal.s "False") :
    emit_ap_item nm item =
      (format_metric item.1 ([("hostname", upperStr nm)] ++ item.2.2) (MVal.i 0),
       [nm ++ " - Metric " ++ item.1 ++ " not found for device. Setting 0 value."]) := by
  unfold emit_ap_item
  rw [h]
  simp

/-- Claim C5: for every schema entry of a processed entity whose source
field resolved to the absent marker, the builder still emits the metric
line with value 0 (the edge builder additionally attaching the error
label), and records a debug log message naming the entity and the missing
metric; the line is never omitted. -/
theorem c5_absent_field_still_emitted :
    (∀ device nm u st cpu mem t1 t2 te ti ps fs ser mo lines logs,
      getv device "name" = Except.ok nm → nm ≠ "" →
      getv device "uptime" = Except.ok u →
      getv device "status" = Except.ok st →
      getv device "cpu_stat.usage" = Except.ok cpu →
      getv device "memory_stat.usage" = Except.ok mem →
      getv device "sensor_stat.temperatures.CPU1.degree" = Except.ok t1 →
      getv device "sensor_stat.temperatures.CPU2.degree" = Except.ok t2 →
      getv device "sensor_stat.temperatures.Exhaust.degree" = Except.ok te →
      getv device "sensor_stat.temperatures.Inlet.degree" = Except.ok ti →
      getv device "sensor_stat.redundancies.PS.state" = Except.ok ps →
      getv device "sensor_stat.redundancies.Fan.state" = Except.ok fs →
      getv device "serial_no" = Except.ok ser →
      getv device "model" = Except.ok mo →
      process_edge_device device = Except.ok (lines, logs) →
      ∀ item ∈ edge_items u st cpu mem t1 t2 te ti ps fs,
        item.2.1 = MVal.s "False" →
        format_metric item.1 ([("hostname", upperStr nm)] ++ item.2.2 ++
          [("error", "Metric not found")]) (MVal.i 0) ∈ lines ∧
        (nm ++ " - Metric " ++ item.1 ++
          " not found for device. Setting 0 value.") ∈ logs) ∧
    (∀ device nm u st pw lastSeen ncl tx rx b6 b5 b24 ser mo hw lines logs,
      getv device "name" = Except.ok nm → nm ≠ "" →
      getv device "uptime" = Except.ok u →
      getv device "status" = Except.ok st →
      getv device "power_constrained" = Except.ok pw →
      getv device "last_seen" = Except.ok lastSeen →
      getv device "num_clients" = Except.ok ncl →
      getv device "port_stat.eth0.tx_bytes" = Except.ok tx →
      getv device "port_stat.eth0.rx_bytes" = Except.ok rx →
      getv device "radio_stat.band_6.util_all" = Except.ok b6 →
      getv device "radio_stat.band_5.util_all" = Except.ok b5 →
      getv device "radio_stat.band_24.util_all" = Except.ok b24 →
      getv device "serial" = Except.ok ser →
      getv device "model" = Except.ok mo →
      getv device "hw_rev" = Except.ok hw →
      process_ap_device device = Except.ok (lines, logs) →
      ∀ item ∈ ap_items u st pw lastSeen ncl tx rx b6 b5 b24,
        item.2.1 = MVal.s "False" →
        format_metric item.1 ([("hostname", upperStr nm)] ++ item.2.2)
          (MVal.i 0) ∈ lines ∧
        (nm ++ " - Metric " ++ item.1 ++
          " not found for device. Setting 0 value.") ∈ logs) := by
  constructor
  · intro device nm u st cpu mem t1 t2 te ti ps fs ser mo lines logs
      hname hne hu hst hcpu hmem ht1 ht2 hte hti hps hfs hser hmo hproc
      item hitem habs
    rw [process_edge_device_eq device nm u st cpu mem t1 t2 te ti ps fs ser mo
      hname hne hu hst hcpu hmem ht1 ht2 hte hti hps hfs hser hmo] at hproc
    have hpair := Except.ok.inj hproc
    have hlines := congrArg Prod.fst hpair
    have hlogs := congrArg Prod.snd hpair
    simp only at hlines hlogs
    constructor
    · rw [← hlines]
      refine List.mem_cons_of_mem _ ?_
      have h1 : emit_edge_item nm item ∈
          (edge_items u st cpu mem t1 t2 te ti ps fs).map (emit_edge_item nm) :=
        List.mem_map_of_mem _ hitem
      have h2 := List.mem_map_of_mem Prod.fst h1
      rw [emit_edge_item_absent nm item habs] at h2
      exact h2
    · rw [← hlogs]
      have h1 : emit_edge_item nm item ∈
          (edge_items u st cpu mem t1 t2 te ti ps fs).map (emit_edge_item nm) :=
        List.mem_map_of_mem _ hitem
      have h2 := List.mem_map_of_mem Prod.snd h1
      rw [emit_edge_item_absent nm item habs] at h2
      exact List.mem_flatten.mpr ⟨_, h2, by simp⟩
  · intro device nm u st pw lastSeen ncl tx rx b6 b5 b24 ser mo hw lines logs
      hname hne hu hst hpw hls hnc htx hrx hb6 hb5 hb24 hser hmo hhw hproc
      item hitem habs
    rw [process_ap_device_eq device nm u st pw lastSeen ncl tx rx b6 b5 b24 ser
      mo hw hname hne hu hst hpw hls hnc htx hrx hb6 hb5 hb24 hser hmo hhw] at hproc
    have hpair := Except.ok.inj hproc
    have hlines := congrArg Prod.fst hpair
    have hlogs := congrArg Prod.snd hpair
    simp only at hlines hlogs
    constructor
    · rw [← hlines]
      refine List.mem_cons_of_mem _ ?_
      have h1 : emit_ap_item nm item ∈
          (ap_items u st pw lastSeen ncl tx rx b6 b5 b24).map (emit_ap_item nm) :=
        List.mem_map_of_mem _ hitem
      have h2 := List.mem_map_of_mem Prod.fst h1
      rw [emit_ap_item_absent nm item habs] at h2
      exact h2
    · rw [← hlogs]
      have h1 : emit_ap_item nm item ∈
          (ap_items u st pw lastSeen ncl tx rx b6 b5 b24).map (emit_ap_item nm) :=
        List.mem_map_of_mem _ hitem
      have h2 := List.mem_map_of_mem Prod.snd h1
      rw [emit_ap_item_absent nm item habs] at h2
      exact List.mem_flatten.mpr ⟨_, h2, by simp⟩

/-- Claim C5, witness: on the concrete access-point record missing
num_clients, the builder still emits mist_device_num_clients with value 0
and logs the missing metric for dev1. -/
theorem c5_absent_field_still_emitted_witness :
    format_metric "mist_device_num_clients" [("hostname", "DEV1")] (MVal.i 0) ∈
      (ap_info_line "dev1" "s1" "ap45" "a" ::
        ((ap_items "100" "connected" "false" "1700000000" "False" "5" "6"
          "1" "2" "3").map (emit_ap_item "dev1")).map Prod.fst) ∧
    ("dev1 - Metric mist_device_num_clients not found for device. " ++
      "Setting 0 value.") ∈
      ((((ap_items "100" "connected" "false" "1700000000" "False" "5" "6"
          "1" "2" "3").map (emit_ap_item "dev1")).map Prod.snd)).flatten :=
  c5_absent_field_still_emitted.2 apDev "dev1" "100" "connected" "false"
    "1700000000" "False" "5" "6" "1" "2" "3" "s1" "ap45" "a" _ _
    rfl (by decide) rfl rfl rfl rfl rfl rfl rfl rfl rfl rfl rfl rfl rfl rfl
    ("mist_device_num_clients", MVal.s "False", []) (by simp [ap_items]) rfl

/-- Claim C2, counterexample: on an edge record with no sensor_stat at
all, the power-supply redundancy state resolves to the absent marker
"False", and get_psu_redundancy returns 1, not the 0 the claim assigns to
an absent state. -/
theorem c2_counterexample :
    get_value_from_path_str (JVal.obj [("name", JVal.str "e1")])
      "sensor_stat.redundancies.PS.state" = PResult.val "False" ∧
    get_psu_redundancy (JVal.obj [("name", JVal.str "e1")]) = Except.ok 1 ∧
    (1 : Int) ≠ 0 :=
  ⟨rfl, rfl, by decide⟩

/-- Claim C2, amended: the redundancy metrics value 0 exactly when the
resolved state string equals fullyredundant, and 1 for every other
resolved state, including the absent marker "False" (absence does not map
to 0); the raw resolved state string is attached as the redundancy label
of the emitted line. -/
theorem c2_redundancy_value_and_label (device : JVal)
    (nm u st cpu mem t1 t2 te ti ps fs ser mo : String)
    (lines logs : List String)
    (hname : getv device "name" = Except.ok nm) (hne : nm ≠ "")
    (hu : getv device "uptime" = Except.ok u)
    (hst : getv device "status" = Except.ok st)
    (hcpu : getv device "cpu_stat.usage" = Except.ok cpu)
    (hmem : getv device "memory_stat.usage" = Except.ok mem)
    (ht1 : getv device "sensor_stat.temperatures.CPU1.degree" = Except.ok t1)
    (ht2 : getv device "sensor_stat.temperatures.CPU2.degree" = Except.ok t2)
    (hte : getv device "sensor_stat.temperatures.Exhaust.degree" = Except.ok te)
    (hti : getv device "sensor_stat.temperatures.Inlet.degree" = Except.ok ti)
    (hps : getv device "sensor_stat.redundancies.PS.state" = Except.ok ps)
    (hfs : getv device "sensor_stat.redundancies.Fan.state" = Except.ok fs)
    (hser : getv device "serial_no" = Except.ok ser)
    (hmo : getv device "model" = Except.ok mo)
    (hproc : process_edge_device device = Except.ok (lines, logs)) :
    get_psu_redundancy device =
      Except.ok (if ps == "fullyredundant" then 0 else 1) ∧
    get_fan_redundancy device =
      Except.ok (if fs == "fullyredundant" then 0 else 1) ∧
    format_metric "mist_edge_psu_redundancies"
      [("hostname", upperStr nm), ("redundancy", ps)]
      (MVal.i (if ps == "fullyredundant" then 0 else 1)) ∈ lines ∧
    format_metric "mist_edge_fan_redundancies"
      [("hostname", upperStr nm), ("redundancy", fs)]
      (MVal.i (if fs == "fullyredundant" then 0 else 1)) ∈ lines := by
  rw [process_edge_device_eq device nm u st cpu mem t1 t2 te ti ps fs ser mo
    hname hne hu hst hcpu hmem ht1 ht2 hte hti hps hfs hser hmo] at hproc
  have hpair := Except.ok.inj hproc
  have hlines := congrArg Prod.fst hpair
  simp only at hlines
  refine ⟨?_, ?_, ?_, ?_⟩
  · unfold get_psu_redundancy
    rw [hps, ok_bind, if_pure_int, pure_eq_ok]
  · unfold get_fan_redundancy
    rw [hfs, ok_bind, if_pure_int, pure_eq_ok]
  · rw [← hlines]
    refine List.mem_cons_of_mem _ ?_
    have h1 : emit_edge_item nm ("mist_edge_psu_redundancies",
        MVal.i (if ps == "fullyredundant" then 0 else 1), [("redundancy", ps)]) ∈
        (edge_items u st cpu mem t1 t2 te ti ps fs).map (emit_edge_item nm) :=
      List.mem_map_of_mem _ (by simp [edge_items])
    have h2 := List.mem_map_of_mem Prod.fst h1
    exact h2
  · rw [← hlines]
    refine List.mem_cons_of_mem _ ?_
    have h1 : emit_edge_item nm ("mist_edge_fan_redundancies",
        MVal.i (if fs == "fullyredundant" then 0 else 1), [("redundancy", fs)]) ∈
        (edge_items u st cpu mem t1 t2 te ti ps fs).map (emit_edge_item nm) :=
      List.mem_map_of_mem _ (by simp [edge_items])
    have h2 := List.mem_map_of_mem Prod.fst h1
    exact h2

/-- Claim C2, witness: on the concrete edge record whose power-supply
state string lowercases to fullyredundant, the psu metric values 0 and
the emitted line carries the redundancy label with the raw resolved
state. -/
theorem c2_redundancy_value_and_label_witness :
    get_psu_redundancy edgeDev = Except.ok 0 ∧
    format_metric "mist_edge_psu_redundancies"
      [("hostname", "EDGE1"), ("redundancy", "fullyredundant")] (MVal.i 0) ∈
      (edge_info_line "edge1" "sn1" "me-x1" ::
        ((edge_items "100" "connected" "12" "34" "40" "41" "42" "43"
          "fullyredundant" "fullyredundant").map (emit_edge_item "edge1")).map
          Prod.fst) := by
  have h := c2_redundancy_value_and_label edgeDev "edge1" "100" "connected"
    "12" "34" "40" "41" "42" "43" "fullyredundant" "fullyredundant" "sn1" "me-x1"
    _ _ rfl (by decide) rfl rfl rfl rfl rfl rfl rfl rfl rfl rfl rfl rfl rfl
  exact ⟨h.1, h.2.2.1⟩

/-- Claim C8, counterexample: with an empty device list the device builder
produces no per-entity lines, only the HELP comment, yet its metric count
summary line reports 1, because the count is taken over the accumulated
list which includes the comment line; so the reported number is not the
total count of metric lines produced for the class. -/
theorem c8_counterexample :
    process_ap_devices ([] : List JVal) = Except.ok ([], []) ∧
    get_device_metrics [] = Except.ok
      (["# HELP mist_device Mist device metrics",
        "mist_device_total_count\x7b\x7d 0",
        "mist_device_metric_total_count\x7b\x7d 1"],
       ["Got 1 metrics for 0 AP device(s) from API"]) :=
  ⟨rfl, rfl⟩

/-- Claim C8, amended: after the per-entity lines each builder appends
exactly two summary lines, the first carrying the total entity count of
the class (the length of the fetched record list, skipped entities
included) and the second carrying the length of the accumulated line list
before the summaries: for the edge class that is exactly the number of
lines emitted for its entities, while for the device class it is that
number plus one, since the leading HELP comment line is counted too. -/
theorem c8_summary_lines (devices : List JVal) (body blogs : List String) :
    (process_edge_devices devices = Except.ok (body, blogs) →
      Except.map Prod.fst (get_edge_metrics devices) = Except.ok
        (body ++
          [format_metric "mist_edge_total_count" [] (MVal.i devices.length),
           format_metric "mist_edge_metric_total_count" [] (MVal.i body.length)])) ∧
    (process_ap_devices devices = Except.ok (body, blogs) →
      Except.map Prod.fst (get_device_metrics devices) = Except.ok
        (("# HELP mist_device Mist device metrics" :: body) ++
          [format_metric "mist_device_total_count" [] (MVal.i devices.length),
           format_metric "mist_device_metric_total_count" []
             (MVal.i (body.length + 1))])) := by
  constructor
  · intro h
    unfold get_edge_metrics
    rw [h, ok_bind, pure_eq_ok]
    rfl
  · intro h
    unfold get_device_metrics
    rw [h, ok_bind, pure_eq_ok]
    simp [Except.map, List.length_cons, Int.add_comm]

/-- Claim C8, witness: with no edge devices the edge builder emits exactly
the two summary lines, both counting zero. -/
theorem c8_summary_lines_witness :
    Except.map Prod.fst (get_edge_metrics ([] : List JVal)) = Except.ok
      ["mist_edge_total_count\x7b\x7d 0", "mist_edge_metric_total_count\x7b\x7d 0"] :=
  (c8_summary_lines [] [] []).1 rfl

theorem brace_mem_format (n : String) (ls : List (String × String)) (v : MVal) :
    '\x7b' ∈ (format_metric n ls v).data := by
  unfold format_metric
  simp only [String.data_append, List.mem_append]
  refine Or.inl (Or.inl (Or.inl (Or.inr ?_)))
  decide

theorem statusB_format (n : String) (ls : List (String × String)) (v : MVal) :
    statusB (format_metric n ls v) = false := by
  unfold statusB
  rw [Bool.or_eq_false_iff]
  constructor
  · rw [beq_eq_false_iff_ne]
    intro h
    have hb := brace_mem_format n ls v
    rw [h] at hb
    revert hb
    decide
  · rw [beq_eq_false_iff_ne]
    intro h
    have hb := brace_mem_format n ls v
    rw [h] at hb
    revert hb
    decide

theorem statusB_emit_edge (nm : String) (item : SchemaItem) :
    statusB (emit_edge_item nm item).1 = false := by
  simp only [emit_edge_item]
  by_cases h : (item.2.1 == MVal.s "False") = true
  · rw [if_pos h]
    exact statusB_format _ _ _
  · rw [if_neg h]
    exact statusB_format _ _ _

theorem statusB_emit_ap (nm : String) (item : SchemaItem) :
    statusB (emit_ap_item nm item).1 = false := by
  simp only [emit_ap_item]
  by_cases h : (item.2.1 == MVal.s "False") = true
  · rw [if_pos h]
    exact statusB_format _ _ _
  · rw [if_neg h]
    exact statusB_format _ _ _

theorem process_edge_device_lines_not_status (d : JVal)
    (p : List String × List String) (h : process_edge_device d = Except.ok p) :
    ∀ l ∈ p.1, statusB l = false := by
  have h0 := h
  unfold process_edge_device at h
  rcases bind_eq_ok.mp h with ⟨nm, hname, h⟩
  by_cases hb : (nm == "") = true
  · simp only [hb, if_true] at h
    rw [pure_eq_ok] at h
    rw [← Except.ok.inj h]
    intro l hl
    exact absurd hl (List.not_mem_nil l)
  · have hne : nm ≠ "" := by simpa using hb
    obtain ⟨items, ser, mo, _, _, _, hshape⟩ :=
      process_edge_device_ok_inv d nm p hname hne h0
    have hlines : p.1 = edge_info_line nm ser mo ::
        ((items.map (emit_edge_item nm)).map Prod.fst) := congrArg Prod.fst hshape
    rw [hlines]
    intro l hl
    rcases List.mem_cons.mp hl with hl | hl
    · rw [hl]
      exact statusB_format _ _ _
    · rcases List.mem_map.mp hl with ⟨x, hx, hxl⟩
      rcases List.mem_map.mp hx with ⟨item, _, hix⟩
      rw [← hxl, ← hix]
      exact statusB_emit_edge nm item

theorem process_ap_device_lines_not_status (d : JVal)
    (p : List String × List String) (h : process_ap_device d = Except.ok p) :
    ∀ l ∈ p.1, statusB l = false := by
  have h0 := h
  unfold process_ap_device at h
  rcases bind_eq_ok.mp h with ⟨nm, hname, h⟩
  by_cases hb : (nm == "") = true
  · simp only [hb, if_true] at h
    rw [pure_eq_ok] at h
    rw [← Except.ok.inj h]
    intro l hl
    exact absurd hl (List.not_mem_nil l)
  · have hne : nm ≠ "" := by simpa using hb
    obtain ⟨items, ser, mo, hw, _, _, _, _, hshape⟩ :=
      process_ap_device_ok_inv d nm p hname hne h0
    have hlines : p.1 = ap_info_line nm ser mo hw ::
        ((items.map (emit_ap_item nm)).map Prod.fst) := congrArg Prod.fst hshape
    rw [hlines]
    intro l hl
    rcases List.mem_cons.mp hl with hl | hl
    · rw [hl]
      exact statusB_format _ _ _
    · rcases List.mem_map.mp hl with ⟨x, hx, hxl⟩
      rcases List.mem_map.mp hx with ⟨item, _, hix⟩
      rw [← hxl, ← hix]
      exact statusB_emit_ap nm item

theorem process_edge_devices_lines_not_status (ds : List JVal)
    (p : List String × List String) (h : process_edge_devices ds = Except.ok p) :
    ∀ l ∈ p.1, statusB l = false := by
  induction ds generalizing p with
  | nil =>
    unfold process_edge_devices at h
    rw [pure_eq_ok] at h
    rw [← Except.ok.inj h]
    intro l hl
    exact absurd hl (List.not_mem_nil l)
  | cons d rest ih =>
    unfold process_edge_devices at h
    rcases bind_eq_ok.mp h with ⟨p1, hp1, h⟩
    rcases bind_eq_ok.mp h with ⟨p2, hp2, h⟩
    rw [pure_eq_ok] at h
    rw [← Except.ok.inj h]
    intro l hl
    rcases List.mem_append.mp hl with hl | hl
    · exact process_edge_device_lines_not_status d p1 hp1 l hl
    · exact ih p2 hp2 l hl

theorem process_ap_devices_lines_not_status (ds : List JVal)
    (p : List String × List String) (h : process_ap_devices ds = Except.ok p) :
    ∀ l ∈ p.1, statusB l = false := by
  induction ds generalizing p with
  | nil =>
    unfold process_ap_devices at h
    rw [pure_eq_ok] at h
    rw [← Except.ok.inj h]
    intro l hl
    exact absurd hl (List.not_mem_nil l)
  | cons d rest ih =>
    unfold process_ap_devices at h
    rcases bind_eq_ok.mp h with ⟨p1, hp1, h⟩
    rcases bind_eq_ok.mp h with ⟨p2, hp2, h⟩
    rw [pure_eq_ok] at h
    rw [← Except.ok.inj h]
    intro l hl
    rcases List.mem_append.mp hl with hl | hl
    · exact process_ap_device_lines_not_status d p1 hp1 l hl
    · exact ih p2 hp2 l hl

theorem get_edge_metrics_lines_not_status (ds : List JVal)
    (p : List String × List String) (h : get_edge_metrics ds = Except.ok p) :
    ∀ l ∈ p.1, statusB l = false := by
  unfold get_edge_metrics at h
  rcases bind_eq_ok.mp h with ⟨body, hbody, h⟩
  rw [pure_eq_ok] at h
  rw [← Except.ok.inj h]
  intro l hl
  rcases List.mem_append.mp hl with hl | hl
  · exact process_edge_devices_lines_not_status ds body hbody l hl
  · rcases List.mem_cons.mp hl with hl | hl
    · rw [hl]; exact statusB_format _ _ _
    · rcases List.mem_cons.mp hl with hl | hl
      · rw [hl]; exact statusB_format _ _ _
      · exact absurd hl (List.not_mem_nil l)

theorem get_device_metrics_lines_not_status (ds : List JVal)
    (p : List String × List String) (h : get_device_metrics ds = Except.ok p) :
    ∀ l ∈ p.1, statusB l = false := by
  unfold get_device_metrics at h
  rcases bind_eq_ok.mp h with ⟨body, hbody, h⟩
  rw [pure_eq_ok] at h
  rw [← Except.ok.inj h]
  intro l hl
  rcases List.mem_append.mp hl with hl | hl
  · rcases List.mem_cons.mp hl with hl | hl
    · rw [hl]; decide
    · exact process_ap_devices_lines_not_status ds body hbody l hl
  · rcases List.mem_cons.mp hl with hl | hl
    · rw [hl]; exact statusB_format _ _ _
    · rcases List.mem_cons.mp hl with hl | hl
      · rw [hl]; exact statusB_format _ _ _
      · exact absurd hl (List.not_mem_nil l)

/-- Inversion of the pipeline: a successful run means every stage
succeeded and the output is both metric blocks followed by the success
status line. -/
theorem run_pipeline_ok_inv (sitesR : Except Unit Unit)
    (devicesR edgesR : Except Unit (List JVal)) (ls : List String)
    (h : run_pipeline sitesR devicesR edgesR = Except.ok ls) :
    ∃ ds dmp es emp, sitesR = Except.ok () ∧ devicesR = Except.ok ds ∧
      get_device_metrics ds = Except.ok dmp ∧ edgesR = Except.ok es ∧
      get_edge_metrics es = Except.ok emp ∧
      ls = dmp.1 ++ emp.1 ++ ["mist_exporter_status 1"] := by
  unfold run_pipeline at h
  cases hs : sitesR with
  | error e =>
    cases e
    simp only [hs, error_bind] at h
    exact Except.noConfusion h
  | ok u =>
    cases u
    cases hd : devicesR with
    | error e =>
      cases e
      simp only [hs, hd, ok_bind, error_bind] at h
      exact Except.noConfusion h
    | ok ds =>
      cases hdm : get_device_metrics ds with
      | error e =>
        cases e
        simp only [hs, hd, hdm, ok_bind, error_bind] at h
        exact Except.noConfusion h
      | ok dmp =>
        cases he : edgesR with
        | error e =>
          cases e
          simp only [hs, hd, hdm, he, ok_bind, error_bind] at h
          exact Except.noConfusion h
        | ok es =>
          cases hem : get_edge_metrics es with
          | error e =>
            cases e
            simp only [hs, hd, hdm, he, hem, ok_bind, error_bind] at h
            exact Except.noConfusion h
          | ok emp =>
            simp only [hs, hd, hdm, he, hem, ok_bind, pure_eq_ok] at h
            exact ⟨ds, dmp, es, emp, rfl, rfl, hdm, rfl, hem,
              (Except.ok.inj h).symm⟩

/-- Claim C4: every run prints exactly one status line and it is the last
line; a failed sites fetch yields exactly the single failure line with no
metric lines before it; and a fully successful run prints the two metric
blocks followed by the success line. -/
theorem c4_exactly_one_status_line (sitesR : Except Unit Unit)
    (devicesR edgesR : Except Unit (List JVal)) :
    (main_output sitesR devicesR edgesR).countP statusB = 1 ∧
    (∀ l, (main_output sitesR devicesR edgesR).getLast? = some l →
      statusB l = true) ∧
    (sitesR = Except.error () →
      main_output sitesR devicesR edgesR = ["mist_exporter_status 0"]) ∧
    (run_pipeline sitesR devicesR edgesR = Except.error () →
      main_output sitesR devicesR edgesR = ["mist_exporter_status 0"]) ∧
    (∀ ds es dm dlogs em elogs, sitesR = Except.ok () →
      devicesR = Except.ok ds → edgesR = Except.ok es →
      get_device_metrics ds = Except.ok (dm, dlogs) →
      get_edge_metrics es = Except.ok (em, elogs) →
      main_output sitesR devicesR edgesR =
        dm ++ em ++ ["mist_exporter_status 1"]) := by
  cases hr : run_pipeline sitesR devicesR edgesR with
  | error e =>
    have hm : main_output sitesR devicesR edgesR = ["mist_exporter_status 0"] := by
      unfold main_output
      rw [hr]
    refine ⟨?_, ?_, ?_, ?_, ?_⟩
    · rw [hm]; decide
    · intro l hl
      rw [hm] at hl
      cases Option.some.inj hl
      decide
    · intro _; exact hm
    · intro _; exact hm
    · intro ds es dm dlogs em elogs hs hd he hdm hem
      exfalso
      have : run_pipeline sitesR devicesR edgesR =
          Except.ok (dm ++ em ++ ["mist_exporter_status 1"]) := by
        unfold run_pipeline
        rw [hs, ok_bind, hd, ok_bind, hdm, ok_bind, he, ok_bind, hem, ok_bind,
          pure_eq_ok]
      rw [hr] at this
      exact Except.noConfusion this
  | ok ls =>
    have hm : main_output sitesR devicesR edgesR = ls := by
      unfold main_output
      rw [hr]
    obtain ⟨ds, dmp, es, emp, hs, hd, hdm, he, hem, hls⟩ :=
      run_pipeline_ok_inv sitesR devicesR edgesR ls hr
    have hdm0 := get_device_metrics_lines_not_status ds dmp hdm
    have hem0 := get_edge_metrics_lines_not_status es emp hem
    refine ⟨?_, ?_, ?_, ?_, ?_⟩
    · rw [hm, hls]
      rw [List.countP_append, List.countP_append]
      rw [List.countP_eq_zero.mpr (fun a ha => by simp [hdm0 a ha]),
        List.countP_eq_zero.mpr (fun a ha => by simp [hem0 a ha])]
      decide
    · intro l hl
      rw [hm, hls] at hl
      rw [List.getLast?_concat] at hl
      cases Option.some.inj hl
      decide
    · intro hserr
      exfalso
      rw [hserr] at hs
      exact Except.noConfusion hs
    · intro hc
      exact absurd hc Except.noConfusion
    · intro ds2 es2 dm dlogs em elogs hs2 hd2 he2 hdm2 hem2
      rw [hm, hls]
      rw [hd2] at hd
      cases Except.ok.inj hd
      rw [he2] at he
      cases Except.ok.inj he
      rw [hdm2] at hdm
      cases Except.ok.inj hdm
      rw [hem2] at hem
      cases Except.ok.inj hem
      rfl

/-- Claim C4, witness: with a failed sites fetch the output is exactly the
single failure status line, which is also counted as the one status
line. -/
theorem c4_exactly_one_status_line_witness :
    main_output (Except.error ()) (Except.ok []) (Except.ok []) =
      ["mist_exporter_status 0"] ∧
    (main_output (Except.error ()) (Except.ok []) (Except.ok [])).countP
      statusB = 1 := by
  have h := c4_exactly_one_status_line (Except.error ()) (Except.ok [])
    (Except.ok [])
  exact ⟨h.2.2.1 rfl, h.1⟩

end MistExporter
